import Mathlib

/-!
Verification of the client-side authentication session manager
(`src/contexts/AuthContext.jsx`).

The JavaScript code is shallowly embedded: `localStorage` becomes an
explicit record of `Option String` fields plus the decoded activity log,
nondeterministic inputs (`Date.now()`, `Math.random()`-derived ids and IP
addresses, `new Date().toISOString()`) become explicit parameters, and the
try/catch structure of the fallible paths is modelled with explicit fault
flags and `Except` results.
-/

set_option autoImplicit false

namespace AuthCtx

/-- JavaScript truthiness for a `string | null` value: `null` and the empty
string are falsy (`!x` in JS). -/
def falsyStr : Option String → Bool
  | none => true
  | some s => s = ""

/-- JavaScript truthiness (`if (x)`) for a `string | null` value. -/
def truthyStr (o : Option String) : Bool := !(falsyStr o)

/-- An entry of the `userLogs` array, as built by `logUserActivity`.
`loginTime` and `logoutTime` are ISO timestamp strings or `null`. -/
structure LogEntry where
  id : String
  userId : String
  username : String
  role : String
  action : String
  loginTime : Option String
  logoutTime : Option String
  ipAddress : String
  tokenName : String
  deriving DecidableEq, Repr

/-- The `newLog` object constructed at the top of `logUserActivity`:
`loginTime` is `now` for a "login" action, `logoutTime` is `now` for a
"logout" action, and `tokenName` falls back to `"N/A"` when the passed
`tokenName` is absent or empty (JS `tokenName || "N/A"`). The fresh `id`,
the current time `now` and the mock `ip` are explicit parameters. -/
def mkLogEntry (userId username role action : String) (tokenName : Option String)
    (newId now ip : String) : LogEntry :=
  { id := newId
    userId := userId
    username := username
    role := role
    action := action
    loginTime := if action = "login" then some now else none
    logoutTime := if action = "logout" then some now else none
    ipAddress := ip
    tokenName :=
      match tokenName with
      | some s => if s = "" then "N/A" else s
      | none => "N/A" }

/-- The predicate of the `findIndex` callback in the logout branch of
`logUserActivity`: `log.userId === userId && log.action === "login" &&
!log.logoutTime`. -/
def isOpenLoginFor (userId : String) (log : LogEntry) : Bool :=
  log.userId = userId && log.action = "login" && falsyStr log.logoutTime

/-- The `findIndex`-then-mutate step of the logout branch: locate the first
entry matching `isOpenLoginFor userId` and update it in place, setting
`logoutTime := now` and `action := "logout"`. Returns `none` when
`findIndex` returns `-1`. -/
def closeFirstOpen (userId now : String) : List LogEntry → Option (List LogEntry)
  | [] => none
  | log :: rest =>
    if isOpenLoginFor userId log then
      some ({ log with logoutTime := some now, action := "logout" } :: rest)
    else
      (closeFirstOpen userId now rest).map (fun l => log :: l)

/-- JS `array.slice(-n)`: the last `n` elements (the whole array when it is
shorter than `n`). -/
def lastN {α : Type} (n : Nat) (l : List α) : List α :=
  l.drop (l.length - n)

/-- `logUserActivity(userId, username, role, action, tokenName)` acting on
the decoded `userLogs` array. For a "logout" action the first open login
entry of that user is mutated in place when one exists, otherwise the fresh
`newLog` is pushed; for every other action `newLog` is pushed. The result
is truncated to the last 100 entries (`slice(-100)`) before being
persisted. -/
def logUserActivity (existingLogs : List LogEntry)
    (userId username role action : String) (tokenName : Option String)
    (newId now ip : String) : List LogEntry :=
  let newLog := mkLogEntry userId username role action tokenName newId now ip
  let updated :=
    if action = "logout" then
      match closeFirstOpen userId now existingLogs with
      | some logs => logs
      | none => existingLogs ++ [newLog]
    else
      existingLogs ++ [newLog]
  lastN 100 updated

/-- The in-memory `user` state: `setUser({email})` on restore gives only an
email, `setUser({email, userId, role})` on login/signup gives all three. -/
structure Session where
  email : String
  userId : Option String
  role : Option String
  deriving DecidableEq, Repr

/-- The combined state the provider manipulates: the four persisted
`localStorage` session keys, the decoded `userLogs` array, the in-memory
`user` state and the `loading` flag. -/
structure AuthState where
  token : Option String
  userRole : Option String
  userId : Option String
  email : Option String
  userLogs : List LogEntry
  user : Option Session
  loading : Bool
  deriving DecidableEq, Repr

/-- `handleLogout` (happy path): read the persisted `userId`, `email` and
`userRole`; when all three are truthy, record a "logout" activity event;
then remove the four persisted keys and reset `user` to `null`. -/
def handleLogout (st : AuthState) (newId now ip : String) : AuthState :=
  let logs :=
    if truthyStr st.userId && truthyStr st.email && truthyStr st.userRole then
      logUserActivity st.userLogs (st.userId.getD "") (st.email.getD "")
        (st.userRole.getD "") "logout" none newId now ip
    else st.userLogs
  { st with
      token := none
      userRole := none
      userId := none
      email := none
      userLogs := logs
      user := none }

/-- `logUserActivity` with its internal try/catch made explicit: when any of
its storage operations throws (`storeFails`), the catch swallows the error
and the persisted log is left unchanged; the function itself never throws. -/
def logUserActivityTry (storeFails : Bool) (existingLogs : List LogEntry)
    (userId username role action : String) (tokenName : Option String)
    (newId now ip : String) : List LogEntry :=
  if storeFails then existingLogs
  else logUserActivity existingLogs userId username role action tokenName newId now ip

/-- `handleLogout` with its try/catch made explicit. `getFails` models the
initial `localStorage.getItem` reads throwing: control then reaches the
catch block, which still removes the four keys and resets `user`.
`logFails` models a failure inside `logUserActivity` (swallowed there).
The result is an `Except` to record that the function never throws. -/
def handleLogoutTry (getFails logFails : Bool) (st : AuthState)
    (newId now ip : String) : Except String AuthState :=
  if getFails then
    .ok { st with
            token := none
            userRole := none
            userId := none
            email := none
            user := none }
  else
    let logs :=
      if truthyStr st.userId && truthyStr st.email && truthyStr st.userRole then
        logUserActivityTry logFails st.userLogs (st.userId.getD "")
          (st.email.getD "") (st.userRole.getD "") "logout" none newId now ip
      else st.userLogs
    .ok { st with
            token := none
            userRole := none
            userId := none
            email := none
            userLogs := logs
            user := none }

/-- The `checkAuth` routine run once on mount (the `restore()` startup
path). `fails` models the try block throwing: the catch calls
`handleLogout`. Otherwise: with a truthy token and a truthy email the
in-memory user becomes `{email}`; with a truthy token but no usable email
`handleLogout` is invoked; with no token nothing changes. The `finally`
clause always clears `loading`. Returns an `Except` to record that it never
throws. -/
def checkAuth (fails : Bool) (st : AuthState) (newId now ip : String) :
    Except String AuthState :=
  let st' :=
    if fails then handleLogout st newId now ip
    else if truthyStr st.token then
      if truthyStr st.email then
        { st with user := some { email := st.email.getD "", userId := none, role := none } }
      else
        handleLogout st newId now ip
    else st
  .ok { st' with loading := false }

/-- Helper for JS `string.includes(pat)` on the underlying character lists:
`sublistAt s pat` holds when `pat` is an initial segment of `s`. -/
def sublistAt : List Char → List Char → Bool
  | _, [] => true
  | [], _ :: _ => false
  | a :: s, b :: pat => (a = b) && sublistAt s pat

/-- JS `string.includes(pat)`: some suffix of `s` starts with `pat`. -/
def strIncludes (s pat : String) : Bool :=
  go s.data pat.data
where
  go : List Char → List Char → Bool
    | [], pat => pat.isEmpty
    | s@(_ :: rest), pat => sublistAt s pat || go rest pat

/-- `login(email, password)`: the freshly generated mock token and the
`Date.now()` timestamp are explicit parameters (`token`, `nowMs`), as are
the log entry's fresh id, ISO time and mock IP. Role is "admin" iff the
email contains "admin"; the userId is namespaced by role; the four session
keys are persisted, the in-memory state updated, a "login" activity event
recorded, and the session returned. The password is never read. -/
def login (st : AuthState) (email _password : String) (token : String)
    (nowMs : Nat) (newId now ip : String) : AuthState × Session :=
  let userId :=
    if strIncludes email "admin" then "admin-" ++ toString nowMs
    else "user-" ++ toString nowMs
  let role := if strIncludes email "admin" then "admin" else "user"
  let logs := logUserActivity st.userLogs userId email role "login"
    (some (token.take 20 ++ "...")) newId now ip
  let session : Session := { email := email, userId := some userId, role := some role }
  ({ st with
      token := some token
      userRole := some role
      userId := some userId
      email := some email
      userLogs := logs
      user := some session },
   session)

/-- `hasRole(requiredRole)`: `localStorage.getItem("userRole") ===
requiredRole`. A `null` read compares unequal to every string. -/
def hasRole (st : AuthState) (requiredRole : String) : Bool :=
  match st.userRole with
  | some r => r = requiredRole
  | none => false

/-- `isAuthenticated: !!user`. -/
def isAuthenticated (st : AuthState) : Bool :=
  st.user.isSome

/-- One `record(..., "login")` call of the 101-call spec example, with
synthetic distinct user ids `u0`, `u1`, ... -/
def loginCall (logs : List LogEntry) (i : Nat) : List LogEntry :=
  logUserActivity logs ("u" ++ toString i) ("u" ++ toString i ++ "@x.com") "user"
    "login" none ("id" ++ toString i) ("t" ++ toString i) "ip"

/-- The log after 101 sequential login calls for distinct synthetic ids,
starting from an empty log. -/
def log101 : List LogEntry := (List.range 101).foldl loginCall []

/-- A concrete open login entry (action "login", no logout time). -/
def sampleOpenLogin : LogEntry :=
  { id := "id1", userId := "u1", username := "a@x.com", role := "user",
    action := "login", loginTime := some "t1", logoutTime := none,
    ipAddress := "192.168.1.7", tokenName := "tok" }

/-- A concrete fully-populated persisted state. -/
def sampleState : AuthState :=
  { token := some "tok", userRole := some "user", userId := some "u1",
    email := some "a@x.com", userLogs := [sampleOpenLogin],
    user := some { email := "a@x.com", userId := some "u1", role := some "user" },
    loading := false }

/-- A concrete inconsistent persisted state: token present, email absent. -/
def inconsistentState : AuthState :=
  { token := some "tok", userRole := none, userId := none, email := none,
    userLogs := [sampleOpenLogin],
    user := none, loading := true }

/-- `slice(-n)` returns at most `n` elements. -/
theorem lastN_length_le {α : Type} (n : Nat) (l : List α) : (lastN n l).length ≤ n := by
  simp only [lastN, List.length_drop]
  omega

/-- `slice(-n)` of a list no longer than `n` is the list itself. -/
theorem lastN_eq_self {α : Type} {n : Nat} {l : List α} (h : l.length ≤ n) :
    lastN n l = l := by
  simp [lastN, Nat.sub_eq_zero_of_le h]

/-- `slice(-n)` keeps any suffix of length at most `n` intact; everything
it drops comes from the front. -/
theorem lastN_append_suffix {α : Type} {n : Nat} (l t : List α) (h : t.length ≤ n) :
    ∃ f, lastN n (l ++ t) = f ++ t ∧ ∃ k, f = l.drop k := by
  refine ⟨l.drop ((l ++ t).length - n), ?_, (l ++ t).length - n, rfl⟩
  rw [lastN, List.drop_append_of_le_length (by simp; omega)]

/-- `findIndex` misses exactly when no entry satisfies the predicate. -/
theorem closeFirstOpen_none (u now : String) : ∀ {logs : List LogEntry},
    logs.all (fun log => !(isOpenLoginFor u log)) = true →
    closeFirstOpen u now logs = none := by
  intro logs h
  induction logs with
  | nil => rfl
  | cons a t ih =>
    simp only [List.all_cons, Bool.and_eq_true, Bool.not_eq_true'] at h
    simp [closeFirstOpen, h.1, ih (by simpa using h.2)]

/-- `findIndex` finds the first matching entry: when no entry of `pre`
matches and `e` does, exactly `e` is updated in place. -/
theorem closeFirstOpen_first (u now : String) (pre : List LogEntry) (e : LogEntry)
    (post : List LogEntry)
    (hPre : pre.all (fun log => !(isOpenLoginFor u log)) = true)
    (hOpen : isOpenLoginFor u e = true) :
    closeFirstOpen u now (pre ++ e :: post) =
      some (pre ++ { e with logoutTime := some now, action := "logout" } :: post) := by
  induction pre with
  | nil => simp [closeFirstOpen, hOpen]
  | cons a t ih =>
    simp only [List.all_cons, Bool.and_eq_true, Bool.not_eq_true'] at hPre
    simp [closeFirstOpen, hPre.1, ih (by simpa using hPre.2)]

/-- The "login" branch of `logUserActivity` pushes the new entry and
truncates. -/
theorem logUserActivity_login_eq (logs : List LogEntry) (u un r : String)
    (tn : Option String) (newId now ip : String) :
    logUserActivity logs u un r "login" tn newId now ip
      = lastN 100 (logs ++ [mkLogEntry u un r "login" tn newId now ip]) := by
  simp [logUserActivity]

/-- The "logout" branch when `findIndex` succeeds: the mutated array is
truncated and persisted. -/
theorem logUserActivity_logout_found (logs updated : List LogEntry) (u un r : String)
    (tn : Option String) (newId now ip : String)
    (h : closeFirstOpen u now logs = some updated) :
    logUserActivity logs u un r "logout" tn newId now ip = lastN 100 updated := by
  simp [logUserActivity, h]

/-- The "logout" branch when `findIndex` misses: the standalone logout
entry is pushed and the array truncated. -/
theorem logUserActivity_logout_notfound (logs : List LogEntry) (u un r : String)
    (tn : Option String) (newId now ip : String)
    (h : closeFirstOpen u now logs = none) :
    logUserActivity logs u un r "logout" tn newId now ip
      = lastN 100 (logs ++ [mkLogEntry u un r "logout" tn newId now ip]) := by
  simp [logUserActivity, h]

set_option maxRecDepth 8000 in
/-- C1: every `logUserActivity` call leaves at most 100 persisted entries,
and after 101 sequential login calls for distinct synthetic user ids the
log has exactly 100 entries and the very first call's entry (user "u0") is
absent — oldest dropped first. -/
theorem activityLog_bounded :
    (∀ (logs : List LogEntry) (userId username role action : String)
        (tokenName : Option String) (newId now ip : String),
      (logUserActivity logs userId username role action tokenName newId now ip).length ≤ 100) ∧
    log101.length = 100 ∧
    log101.all (fun e => !(e.userId == "u0")) = true := by
  refine ⟨?_, by decide, by decide⟩
  intro logs u un r a tn i n ip
  exact lastN_length_le 100 _

/-- C2: a "logout" record call mutates the first open login entry of that
user in place (same id, `logoutTime := now`, `action := "logout"`) without
appending; when no open entry exists it appends a standalone logout entry
(`action = "logout"`, `logoutTime = now`, `loginTime = null`) at the end. -/
theorem record_logout_reconciles (pre post : List LogEntry) (e : LogEntry)
    (userId username role : String) (tokenName : Option String) (newId now ip : String)
    (hOpen : isOpenLoginFor userId e = true)
    (hPre : pre.all (fun log => !(isOpenLoginFor userId log)) = true)
    (hLen : (pre ++ e :: post).length ≤ 100) :
    logUserActivity (pre ++ e :: post) userId username role "logout" tokenName newId now ip
        = pre ++ { e with logoutTime := some now, action := "logout" } :: post ∧
    (∀ logs : List LogEntry,
        logs.all (fun log => !(isOpenLoginFor userId log)) = true →
        logUserActivity logs userId username role "logout" tokenName newId now ip
          = lastN 100 (logs ++ [mkLogEntry userId username role "logout" tokenName newId now ip]) ∧
        ∃ f, logUserActivity logs userId username role "logout" tokenName newId now ip
          = f ++ [mkLogEntry userId username role "logout" tokenName newId now ip]) ∧
    (mkLogEntry userId username role "logout" tokenName newId now ip).logoutTime = some now ∧
    (mkLogEntry userId username role "logout" tokenName newId now ip).loginTime = none ∧
    (mkLogEntry userId username role "logout" tokenName newId now ip).action = "logout" := by
  refine ⟨?_, ?_, by simp [mkLogEntry], by simp [mkLogEntry], rfl⟩
  · rw [logUserActivity_logout_found _ _ _ _ _ _ _ _ _
      (closeFirstOpen_first userId now pre e post hPre hOpen)]
    exact lastN_eq_self (by simp at hLen ⊢; omega)
  · intro logs hAll
    have hn := closeFirstOpen_none userId now hAll
    refine ⟨logUserActivity_logout_notfound _ _ _ _ _ _ _ _ hn, ?_⟩
    obtain ⟨f, hf, -⟩ := lastN_append_suffix (n := 100) logs
      [mkLogEntry userId username role "logout" tokenName newId now ip] (by simp)
    exact ⟨f, by rw [logUserActivity_logout_notfound _ _ _ _ _ _ _ _ hn, hf]⟩

/-- C2 witness: a single open login entry for "u1" is closed in place by a
logout record call. -/
theorem record_logout_reconciles_witness :
    logUserActivity [sampleOpenLogin] "u1" "a@x.com" "user" "logout" none "id2" "t2" "ip2"
      = [{ sampleOpenLogin with logoutTime := some "t2", action := "logout" }] :=
  (record_logout_reconciles [] [] sampleOpenLogin "u1" "a@x.com" "user" none "id2" "t2" "ip2"
    (by decide) (by decide) (by decide)).1

/-- C3: a "login" record call always appends a new open entry
(`loginTime = now`, `logoutTime = null`) at the end, regardless of the
existing log; two logins for the same user with no intervening logout leave
two separate open login entries at the end of the log. -/
theorem record_login_appends (logs : List LogEntry)
    (userId username role : String) (tokenName tokenName2 : Option String)
    (newId now ip newId2 now2 ip2 : String) :
    logUserActivity logs userId username role "login" tokenName newId now ip
        = lastN 100 (logs ++ [mkLogEntry userId username role "login" tokenName newId now ip]) ∧
    (mkLogEntry userId username role "login" tokenName newId now ip).loginTime = some now ∧
    (mkLogEntry userId username role "login" tokenName newId now ip).logoutTime = none ∧
    isOpenLoginFor userId (mkLogEntry userId username role "login" tokenName newId now ip) = true ∧
    isOpenLoginFor userId (mkLogEntry userId username role "login" tokenName2 newId2 now2 ip2) = true ∧
    (∃ front,
      logUserActivity
        (logUserActivity logs userId username role "login" tokenName newId now ip)
        userId username role "login" tokenName2 newId2 now2 ip2
      = front ++ [mkLogEntry userId username role "login" tokenName newId now ip,
                  mkLogEntry userId username role "login" tokenName2 newId2 now2 ip2]) := by
  refine ⟨logUserActivity_login_eq logs userId username role tokenName newId now ip,
    by simp [mkLogEntry], by simp [mkLogEntry],
    by simp [isOpenLoginFor, mkLogEntry, falsyStr],
    by simp [isOpenLoginFor, mkLogEntry, falsyStr], ?_⟩
  obtain ⟨f1, hf1, -⟩ := lastN_append_suffix (n := 100) logs
    [mkLogEntry userId username role "login" tokenName newId now ip] (by simp)
  obtain ⟨f2, hf2, -⟩ := lastN_append_suffix (n := 100) f1
    [mkLogEntry userId username role "login" tokenName newId now ip,
     mkLogEntry userId username role "login" tokenName2 newId2 now2 ip2] (by simp)
  refine ⟨f2, ?_⟩
  rw [logUserActivity_login_eq, logUserActivity_login_eq, hf1, List.append_assoc]
  exact hf2

/-- C4: the startup `checkAuth` with a token but no email clears the four
persisted fields and leaves no in-memory session; moreover it never throws,
and the error path likewise degrades to no session with full cleanup. -/
theorem checkAuth_restore_spec (st : AuthState) (newId now ip : String)
    (htok : truthyStr st.token = true) (hem : st.email = none) :
    checkAuth false st newId now ip =
      Except.ok { st with token := none, userRole := none, userId := none,
                          email := none, user := none, loading := false } ∧
    (∀ (fails : Bool) (st₂ : AuthState), ∃ st₂',
      checkAuth fails st₂ newId now ip = Except.ok st₂' ∧
      (fails = true → st₂'.token = none ∧ st₂'.userRole = none ∧ st₂'.userId = none ∧
        st₂'.email = none ∧ st₂'.user = none)) := by
  constructor
  · have hef : truthyStr st.email = false := by rw [hem]; rfl
    have hlog : (truthyStr st.userId && truthyStr st.email && truthyStr st.userRole) = false := by
      simp [hef]
    simp [checkAuth, htok, hef, handleLogout, hlog]
  · intro fails st₂
    cases fails
    · exact ⟨_, rfl, by simp⟩
    · exact ⟨_, rfl, by intro h; simp [handleLogout]⟩

/-- C4 witness: a concrete state with a token and no email is fully
cleaned up by `checkAuth`. -/
theorem checkAuth_restore_witness :
    checkAuth false inconsistentState "id9" "t9" "ip9" =
      Except.ok { inconsistentState with
                    token := none, userRole := none, userId := none,
                    email := none, user := none, loading := false } :=
  (checkAuth_restore_spec inconsistentState "id9" "t9" "ip9" (by decide) rfl).1

/-- C5: `hasRole(requiredRole)` is true exactly when the persisted
`userRole` equals `requiredRole` as a string, with no normalization; in
particular for `"admin"`. -/
theorem hasRole_exact (st : AuthState) (requiredRole : String) :
    (hasRole st requiredRole = true ↔ st.userRole = some requiredRole) ∧
    (hasRole st "admin" = true ↔ st.userRole = some "admin") := by
  constructor <;> cases h : st.userRole <;> simp [hasRole, h]

/-- C6: `login(email, password)` assigns role "admin" iff the email
contains "admin" (else "user"), builds a userId namespaced by that role and
the timestamp, persists all four fields, updates the in-memory state,
records a login activity event, returns `{email, userId, role}`, and never
reads the password. -/
theorem login_spec (st : AuthState) (email password token : String) (nowMs : Nat)
    (newId now ip : String) :
    (login st email password token nowMs newId now ip).2.role
        = some (if strIncludes email "admin" then "admin" else "user") ∧
    (login st email password token nowMs newId now ip).2.userId
        = some ((if strIncludes email "admin" then "admin-" else "user-") ++ toString nowMs) ∧
    (login st email password token nowMs newId now ip).2.email = email ∧
    (login st email password token nowMs newId now ip).1.token = some token ∧
    (login st email password token nowMs newId now ip).1.userRole
        = (login st email password token nowMs newId now ip).2.role ∧
    (login st email password token nowMs newId now ip).1.userId
        = (login st email password token nowMs newId now ip).2.userId ∧
    (login st email password token nowMs newId now ip).1.email = some email ∧
    (login st email password token nowMs newId now ip).1.user
        = some (login st email password token nowMs newId now ip).2 ∧
    (login st email password token nowMs newId now ip).1.userLogs
        = logUserActivity st.userLogs
            ((if strIncludes email "admin" then "admin-" else "user-") ++ toString nowMs)
            email (if strIncludes email "admin" then "admin" else "user") "login"
            (some (token.take 20 ++ "...")) newId now ip ∧
    (∃ front, (login st email password token nowMs newId now ip).1.userLogs
        = front ++ [mkLogEntry
            ((if strIncludes email "admin" then "admin-" else "user-") ++ toString nowMs)
            email (if strIncludes email "admin" then "admin" else "user") "login"
            (some (token.take 20 ++ "...")) newId now ip]) ∧
    (∀ password2, login st email password2 token nowMs newId now ip
        = login st email password token nowMs newId now ip) := by
  obtain ⟨f, hf, -⟩ := lastN_append_suffix (n := 100) st.userLogs
    [mkLogEntry ((if strIncludes email "admin" then "admin-" else "user-") ++ toString nowMs)
      email (if strIncludes email "admin" then "admin" else "user") "login"
      (some (token.take 20 ++ "...")) newId now ip] (by simp)
  cases h : strIncludes email "admin" <;>
    refine ⟨by simp [login, h], by simp [login, h], rfl, rfl, by simp [login, h],
      by simp [login, h], rfl, rfl, by simp [login, h], ⟨f, ?_⟩, fun _ => rfl⟩ <;>
    · simp only [login, h] at hf ⊢
      rw [logUserActivity_login_eq]
      simpa using hf

/-- C7: the logout path never throws and always clears the four persisted
fields and the in-memory state, whatever fails inside the activity-event
emission or the initial reads. -/
theorem handleLogoutTry_clears (getFails logFails : Bool) (st : AuthState)
    (newId now ip : String) :
    ∃ st', handleLogoutTry getFails logFails st newId now ip = Except.ok st' ∧
      st'.token = none ∧ st'.userRole = none ∧ st'.userId = none ∧
      st'.email = none ∧ st'.user = none := by
  cases getFails <;> simp [handleLogoutTry]

/-- C8: `handleLogout` records a logout activity event exactly when the
persisted `userId`, `email` and `userRole` are all present and non-empty;
otherwise the log is untouched; in either case the four persisted fields
and the in-memory state are cleared, and the in-memory `user` value is
never consulted. -/
theorem handleLogout_emits_iff (st : AuthState) (newId now ip : String) :
    ((truthyStr st.userId && truthyStr st.email && truthyStr st.userRole) = true →
      (handleLogout st newId now ip).userLogs =
        logUserActivity st.userLogs (st.userId.getD "") (st.email.getD "")
          (st.userRole.getD "") "logout" none newId now ip) ∧
    ((truthyStr st.userId && truthyStr st.email && truthyStr st.userRole) = false →
      (handleLogout st newId now ip).userLogs = st.userLogs) ∧
    (handleLogout st newId now ip).token = none ∧
    (handleLogout st newId now ip).userRole = none ∧
    (handleLogout st newId now ip).userId = none ∧
    (handleLogout st newId now ip).email = none ∧
    (handleLogout st newId now ip).user = none ∧
    (∀ u', handleLogout { st with user := u' } newId now ip = handleLogout st newId now ip) := by
  cases hc : (truthyStr st.userId && truthyStr st.email && truthyStr st.userRole) <;>
    simp [handleLogout, hc]

/-- C8 witness: with all three persisted fields present, the logout call
records the event. -/
theorem handleLogout_emits_iff_witness :
    (truthyStr sampleState.userId && truthyStr sampleState.email
        && truthyStr sampleState.userRole) = true ∧
    (handleLogout sampleState "id3" "t3" "ip3").userLogs =
      logUserActivity sampleState.userLogs "u1" "a@x.com" "user" "logout" none "id3" "t3" "ip3" :=
  ⟨by decide, (handleLogout_emits_iff sampleState "id3" "t3" "ip3").1 (by decide)⟩

/-- C9: in the logout-mutation case only the matched entry changes, and
only in its `logoutTime` and `action` fields; its position, the other
entries, the order and the length of the log are preserved (no eviction);
in the login-append case the surviving entries are an untouched suffix of
the old log, in order, followed by the new entry. -/
theorem record_mutation_frame (pre post : List LogEntry) (e : LogEntry)
    (userId username role : String) (tokenName : Option String) (newId now ip : String)
    (hOpen : isOpenLoginFor userId e = true)
    (hPre : pre.all (fun log => !(isOpenLoginFor userId log)) = true)
    (hLen : (pre ++ e :: post).length ≤ 100) :
    (∃ e', logUserActivity (pre ++ e :: post) userId username role "logout" tokenName newId now ip
        = pre ++ e' :: post ∧
      e'.id = e.id ∧ e'.userId = e.userId ∧ e'.username = e.username ∧
      e'.role = e.role ∧ e'.loginTime = e.loginTime ∧ e'.ipAddress = e.ipAddress ∧
      e'.tokenName = e.tokenName ∧ e'.logoutTime = some now ∧ e'.action = "logout" ∧
      (pre ++ e' :: post).length = (pre ++ e :: post).length) ∧
    (∀ logs : List LogEntry, ∃ k,
        logUserActivity logs userId username role "login" tokenName newId now ip
          = logs.drop k ++ [mkLogEntry userId username role "login" tokenName newId now ip]) := by
  constructor
  · refine ⟨{ e with logoutTime := some now, action := "logout" }, ?_,
      rfl, rfl, rfl, rfl, rfl, rfl, rfl, rfl, rfl, by simp⟩
    rw [logUserActivity_logout_found _ _ _ _ _ _ _ _ _
      (closeFirstOpen_first userId now pre e post hPre hOpen)]
    exact lastN_eq_self (by simp at hLen ⊢; omega)
  · intro logs
    obtain ⟨f, hf, k, hk⟩ := lastN_append_suffix (n := 100) logs
      [mkLogEntry userId username role "login" tokenName newId now ip] (by simp)
    exact ⟨k, by rw [logUserActivity_login_eq, hf, hk]⟩

/-- C9 witness: closing the single open entry for "u1" preserves every
other field and the log length. -/
theorem record_mutation_frame_witness :
    ∃ e', logUserActivity [sampleOpenLogin] "u1" "a@x.com" "user" "logout" none "id4" "t4" "ip4"
        = [e'] ∧
      e'.id = sampleOpenLogin.id ∧ e'.userId = sampleOpenLogin.userId ∧
      e'.username = sampleOpenLogin.username ∧ e'.role = sampleOpenLogin.role ∧
      e'.loginTime = sampleOpenLogin.loginTime ∧ e'.ipAddress = sampleOpenLogin.ipAddress ∧
      e'.tokenName = sampleOpenLogin.tokenName ∧ e'.logoutTime = some "t4" ∧
      e'.action = "logout" ∧ ([e'] : List LogEntry).length = [sampleOpenLogin].length :=
  (record_mutation_frame [] [] sampleOpenLogin "u1" "a@x.com" "user" none "id4" "t4" "ip4"
    (by decide) (by decide) (by decide)).1

/-- C10: after `handleLogout`, `hasRole` is false for every string and
`isAuthenticated` is false. -/
theorem logout_disables_roles (st : AuthState) (newId now ip r : String) :
    hasRole (handleLogout st newId now ip) r = false ∧
    isAuthenticated (handleLogout st newId now ip) = false := by
  simp [handleLogout, hasRole, isAuthenticated]

end AuthCtx
